import Mathlib

/-!
Verification development for the external-dns RouterOS webhook provider.

The Lean definitions below are a shallow embedding of the Python sources
`mikrotik.py` (wire codec, request/response correlation, connection reader)
and `provider.py` (endpoint/record translation, TTL codec, reconciliation).
Python byte strings are modelled as `List Nat` (each entry one byte), Python
`str` as Lean `String`, Python dicts as insertion-ordered association lists,
and exceptions as `Except String`/`Except Unit` results.
-/

namespace RouterOS

/-! ## Outgoing attribute words (`mikrotik.to_word_value`,
`mikrotik.to_attribute_words`, `mikrotik.to_api_attribute_words`)

Python attribute values passed to the serializers are `None`, `bool`, `int`
or `str`; `PyValue` is that union.  A Python dict preserves insertion order,
so an ordered association list models it. -/

inductive PyValue where
  | none
  | bool (b : Bool)
  | int (n : Int)
  | str (s : String)
deriving DecidableEq, Repr

/-- `mikrotik.to_word_value`: `None` renders as `""`, booleans as lowercase
`true`/`false` (the `isinstance(value, bool)` check precedes `str(value)`),
every other scalar via its textual form (`str(int)` for integers). -/
def to_word_value : PyValue → String
  | .none => ""
  | .bool b => if b then "true" else "false"
  | .int n => toString n
  | .str s => s

/-- `mikrotik.to_attribute_words`: each `(key, value)` entry becomes the word
`=key=<to_word_value value>`, in dict insertion order. -/
def to_attribute_words (val : List (String × PyValue)) : List String :=
  val.map (fun kv => "=" ++ kv.1 ++ "=" ++ to_word_value kv.2)

/-- Python `key.startswith(".")`. -/
def startsWithDot (s : String) : Bool :=
  match s.data with
  | c :: _ => c = '.'
  | [] => false

/-- `mikrotik.to_api_attribute_words`: raises `ValueError` on the first key
that does not start with `.`; otherwise each entry becomes the word
`key=<to_word_value value>` in dict insertion order. -/
def to_api_attribute_words : List (String × PyValue) → Except String (List String)
  | [] => .ok []
  | (k, v) :: rest =>
    if startsWithDot k then
      match to_api_attribute_words rest with
      | .ok ws => .ok ((k ++ "=" ++ to_word_value v) :: ws)
      | .error e => .error e
    else
      .error ("key missing . prefix: " ++ k)

/-! ## TTL codec (`provider.to_routeros_ttl`, `provider.to_external_dns_ttl`)

`to_routeros_ttl` renders every numeric segment with Python `str` on a
non-negative integer; `natToChars` is that decimal rendering (base-10 digits,
most significant first, `"0"` for zero). -/

/-- Helper for `natToChars`: peel decimal digits from the right; the fuel
argument (always at least the value) makes the recursion structural. -/
def natToCharsAux (fuel n : Nat) (acc : List Char) : List Char :=
  match fuel, n with
  | _, 0 => acc
  | 0, _ => acc
  | fuel + 1, n + 1 =>
    natToCharsAux fuel ((n + 1) / 10) (Nat.digitChar ((n + 1) % 10) :: acc)

/-- Decimal rendering of a natural number, as Python `str` produces it. -/
def natToChars (n : Nat) : List Char :=
  if n = 0 then ['0'] else natToCharsAux n n []

/-- The regex character class `[0-9]`. -/
def isDig (c : Char) : Bool :=
  '0' ≤ c && c ≤ '9'

/-- Numeric value of a decimal digit character (Python `int` on a digit). -/
def charToDigit (c : Char) : Nat :=
  c.toNat - 48

/-- Python `int` applied to a string of decimal digits. -/
def digitsToNat (cs : List Char) : Nat :=
  cs.foldl (fun a c => 10 * a + charToDigit c) 0

/-- The rendering `provider.to_routeros_ttl` performs on an in-range second
count: decompose via `datetime.timedelta` (`td.days = n / 86400`,
`td.seconds = n % 86400`) and render `f"{w}w{d}d{h}h{m}m{s}s"`; all five
segments are always emitted.  The `timedelta` constructor itself can raise
before this rendering is reached; `to_routeros_ttl_checked` below is the full
embedding including that error. -/
def to_routeros_ttl (external_dns_ttl : Nat) : String :=
  let days := external_dns_ttl / 86400
  let secs := external_dns_ttl % 86400
  let w := days / 7
  let d := days % 7
  let h := secs / (60 * 60)
  let m := secs % (60 * 60) / 60
  let s := secs % 60
  ⟨natToChars w ++ ['w'] ++ natToChars d ++ ['d'] ++ natToChars h ++ ['h'] ++
    natToChars m ++ ['m'] ++ natToChars s ++ ['s']⟩

/-- `datetime.timedelta(seconds=n)` for a non-negative integer `n`:
normalize to `(days, seconds)` with `days = n / 86400` and
`seconds = n % 86400`, but raise `OverflowError` when the normalized day
count exceeds the documented `timedelta` ceiling of `999999999` days (i.e.
for `n ≥ 86_400_000_000_000`). -/
def timedeltaOfSeconds (n : Nat) : Except String (Nat × Nat) :=
  if 999999999 < n / 86400 then
    .error ("OverflowError: days=" ++ (⟨natToChars (n / 86400)⟩ : String)
      ++ "; must have magnitude <= 999999999")
  else .ok (n / 86400, n % 86400)

/-- `provider.to_routeros_ttl`, in full: build the `timedelta` (which raises
`OverflowError` beyond its day ceiling) and then render the five segments.
On the in-range domain this is `.ok (to_routeros_ttl n)`. -/
def to_routeros_ttl_checked (external_dns_ttl : Nat) : Except String String :=
  match timedeltaOfSeconds external_dns_ttl with
  | .error e => .error e
  | .ok (days, secs) =>
    .ok ⟨natToChars (days / 7) ++ ['w'] ++ natToChars (days % 7) ++ ['d'] ++
      natToChars (secs / (60 * 60)) ++ ['h'] ++ natToChars (secs % (60 * 60) / 60) ++ ['m'] ++
      natToChars (secs % 60) ++ ['s']⟩

/-- One optional regex group `(?P<u>[0-9]+u)?` matched at the current
position: greedily take digits, then require the unit letter; on failure the
group matches nothing and the position is unchanged (backtracking cannot help
because the unit letter is not a digit).  Returns the segment value (`0` for
a missing segment, as `to_external_dns_ttl` substitutes `f"0{key}"`) and the
remaining input. -/
def readSeg (u : Char) (cs : List Char) : Nat × List Char :=
  let digs := cs.takeWhile isDig
  match cs.dropWhile isDig with
  | c :: rest => if c = u ∧ digs ≠ [] then (digitsToNat digs, rest) else (0, cs)
  | [] => (0, cs)

/-- `provider.to_external_dns_ttl`: match the five optional segments in
`w d h m s` order, default each missing segment to zero, and total the
seconds. -/
def to_external_dns_ttl (mikrotik_ttl : String) : Nat :=
  let pw := readSeg 'w' mikrotik_ttl.data
  let pd := readSeg 'd' pw.2
  let ph := readSeg 'h' pd.2
  let pm := readSeg 'm' ph.2
  let ps := readSeg 's' pm.2
  ps.1 + pm.1 * 60 + ph.1 * 60 * 60 + pd.1 * 60 * 60 * 24 + pw.1 * 60 * 60 * 24 * 7

/-! ## Wire codec (`mikrotik.write_word`, `mikrotik.read_word`)

Words travel as byte strings; a byte stream is a `List Nat` whose entries are
the byte values.  `write_word` frames one word; `read_word` consumes one word
from the front of a stream and returns the word together with the unread
remainder.  Python `ord`, which `read_word` applies to the collected length
prefix, accepts only a single byte and raises `TypeError` otherwise. -/

/-- Big-endian `int.to_bytes(numBytes, "big")`.  (`write_word` only calls it
with values below `256 ^ numBytes`, so the `OverflowError` case of the Python
method is unreachable there.) -/
def toBytesBE (numBytes : Nat) (v : Nat) : List Nat :=
  (List.range numBytes).map (fun i => v / 256 ^ (numBytes - 1 - i) % 256)

/-- `mikrotik.write_word`: pick the size class from the word length, OR the
class mask onto the length, emit it big-endian, then the payload bytes. -/
def write_word (word : List Nat) : List Nat :=
  (if word.length ≤ 0x7F then toBytesBE 1 (0x00 ||| word.length)
    else if word.length ≤ 0x3FFF then toBytesBE 2 (0x8000 ||| word.length)
    else if word.length ≤ 0x1FFFFF then toBytesBE 3 (0xC00000 ||| word.length)
    else if word.length ≤ 0xFFFFFFF then toBytesBE 4 (0xE0000000 ||| word.length)
    else toBytesBE 5 (0xF000000000 ||| word.length))
  ++ word

/-- Python `ord`: the byte value of a one-byte sequence, `TypeError` for any
other length. -/
def pyOrd : List Nat → Except String Nat
  | [b] => .ok b
  | _ => .error "TypeError: ord() expected a character"

/-- The mask cascade at the top of `mikrotik.read_word`: how many additional
length bytes the first length byte announces. -/
def readNumBytes (header : Nat) : Nat :=
  if header &&& 0xF0 == 0xF0 then 4
  else if header &&& 0xE0 == 0xE0 then 3
  else if header &&& 0xC0 == 0xC0 then 2
  else if header &&& 0x80 == 0x80 then 1
  else 0

/-- `mikrotik.read_word`: read the first length byte, choose how many extra
length bytes to read from its high bits, apply `ord` to the concatenation of
all collected length bytes, then read that many payload bytes.  Returns the
word and the unread rest of the stream; a short stream is the
`IncompleteReadError` of `StreamReader.readexactly`. -/
def read_word : List Nat → Except String (List Nat × List Nat)
  | [] => .error "IncompleteReadError"
  | b :: rest =>
    if readNumBytes b ≤ rest.length then
      match pyOrd (b :: rest.take (readNumBytes b)) with
      | .error e => .error e
      | .ok len =>
        if len ≤ (rest.drop (readNumBytes b)).length then
          .ok ((rest.drop (readNumBytes b)).take len, (rest.drop (readNumBytes b)).drop len)
        else .error "IncompleteReadError"
    else .error "IncompleteReadError"

/-! ## Request/response correlation (`mikrotik.ResponseSentence`,
`mikrotik.ResponseStatus`, `mikrotik.Response`)

`Response.completion_event` (an `asyncio.Event`) is modelled by the boolean
`complete`; `Response.request` carries only an opaque random tag and the
outgoing words, which none of the claims inspect, so it is omitted here.
Methods that `raise` are modelled as `Except`: an `.error` result corresponds
to the exception propagating before any further mutation, so the caller's
view of the response is the unchanged input value. -/

structure ResponseSentence where
  type : String
  attributes : List (String × String)
  api_attributes : List (String × String)
deriving DecidableEq, Repr

inductive ResponseStatus where
  | InProgress
  | Error
  | Success
deriving DecidableEq, Repr

structure Response where
  sentences : List ResponseSentence
  status : ResponseStatus
  complete : Bool
deriving DecidableEq, Repr

/-- `Response.__init__`: no sentences, in progress, completion event unset. -/
def Response.fresh : Response :=
  { sentences := [], status := .InProgress, complete := false }

/-- `Response.is_complete`. -/
def Response.is_complete (r : Response) : Bool :=
  r.complete

/-- `mikrotik.Response.update_with_sentence`: reject when already complete;
append the sentence; `!trap` forces status `Error`; `!done` promotes
`InProgress` to `Success` and sets the completion event.  Nothing else sets
the completion event. -/
def Response.update_with_sentence (r : Response) (s : ResponseSentence) :
    Except String Response :=
  if r.is_complete then .error "response is complete"
  else
    let r := { r with sentences := r.sentences ++ [s] }
    if s.type == "!trap" then .ok { r with status := .Error }
    else if s.type == "!done" then
      if r.status == .InProgress then .ok { r with status := .Success, complete := true }
      else .ok { r with complete := true }
    else .ok r

/-- `mikrotik.Response.cancel`: reject when already complete (the source's
message carries a typo, `"rresponse is complete"`); otherwise feed a
synthetic `!trap` sentence with attribute `message = "response cancelled"`
through `update_with_sentence`. -/
def Response.cancel (r : Response) : Except String Response :=
  if r.is_complete then .error "rresponse is complete"
  else r.update_with_sentence
    { type := "!trap", attributes := [("message", "response cancelled")], api_attributes := [] }

/-- Feeding a list of sentences through `update_with_sentence` one by one,
stopping at the first raised exception; this is what the connection reader
does to a response over its lifetime. -/
def Response.applyAll (r : Response) (ss : List ResponseSentence) : Except String Response :=
  ss.foldlM Response.update_with_sentence r

/-! ## Connection reader (`mikrotik.Connection.read`,
`mikrotik.Connection.run_background_read`)

The connection state keeps the pieces of `Connection` that `read` touches:
the `closed_event` flag, whether a stream is present, the pending-response
dict (insertion-ordered association list) and the idle timestamp
(`datetime.now()` values are supplied as abstract `Nat` instants).  The
socket is modelled by the list of already-parsed incoming sentences handed to
successive `read` calls (`none` for a `read_sentence` that returned `None`).
A raised exception inside `read` propagates out of `run_background_read` and
terminates that task; nothing catches it, so the returned state is exactly
the state at the raise point. -/

structure ConnState where
  closed : Bool
  stream : Bool
  responses : List (String × Response)
  idle_since : Nat
deriving DecidableEq, Repr

/-- Ordered-dict update used below: replace the value stored at `k`. -/
def updateAssoc (k : String) (v : Response) : List (String × Response) → List (String × Response)
  | [] => []
  | (k', v') :: rest =>
    if k' = k then (k', v) :: rest else (k', v') :: updateAssoc k v rest

/-- Ordered-dict removal (`dict.pop`). -/
def removeAssoc (k : String) : List (String × Response) → List (String × Response)
  | [] => []
  | (k', v') :: rest =>
    if k' = k then rest else (k', v') :: removeAssoc k rest

/-- `mikrotik.Connection.read`, one invocation: with no stream it returns at
once; a `None` sentence likewise.  Otherwise it refreshes `idle_since`, then
raises `RuntimeError("tag not found")` when the sentence has no `.tag`
api-attribute, raises `KeyError` when the tag is unknown
(`self.responses[tag]`), and otherwise updates the tagged response, dropping
it from the pending dict once complete.  The second component is the raised
exception, if any. -/
def Connection.read (st : ConnState) (now : Nat) (s : Option ResponseSentence) :
    ConnState × Option String :=
  if st.stream then
    match s with
    | none => (st, none)
    | some sentence =>
      let st := { st with idle_since := now }
      match sentence.api_attributes.lookup ".tag" with
      | none => (st, some "RuntimeError: tag not found")
      | some tag =>
        match st.responses.lookup tag with
        | none => (st, some ("KeyError: " ++ tag))
        | some response =>
          match response.update_with_sentence sentence with
          | .error e => (st, some ("RuntimeError: " ++ e))
          | .ok response =>
            if response.is_complete then
              ({ st with responses := removeAssoc tag st.responses }, none)
            else
              ({ st with responses := updateAssoc tag response st.responses }, none)
  else (st, none)

/-- `mikrotik.Connection.run_background_read`: loop `read` over the incoming
sentences while `closed_event` is unset.  An exception raised by `read`
propagates and terminates the task right there — no handler runs, `close()`
is not scheduled, and the state is left as `read` left it. -/
def Connection.run_background_read (st : ConnState) :
    List (Nat × Option ResponseSentence) → ConnState × Option String
  | [] => (st, none)
  | (now, s) :: events =>
    if st.closed then (st, none)
    else
      match Connection.read st now s with
      | (st', none) => Connection.run_background_read st' events
      | (st', some e) => (st', some e)

/-! ## Device records and endpoints (`mikrotik.IpDnsRecord`,
`provider.Endpoint`, `provider.Changes`)

The pydantic discriminated union of record classes becomes a common base
record plus a payload variant keyed on `type`.  `Endpoint.labels` and
`Endpoint.provider_specific` are carried nowhere in the translation layer and
are omitted. -/

inductive IpDnsRecordType where
  | A | AAAA | CNAME | FWD | MX | NS | NXDOMAIN | SRV | TXT
deriving DecidableEq, Repr

/-- `mikrotik.BaseIpDnsRecord`: the fields shared by every record class. -/
structure BaseIpDnsRecord where
  disabled : Bool
  id : Option String := none
  match_subdomain : Bool := false
  name : String
  ttl : String
deriving DecidableEq, Repr

/-- The variant-specific payloads of the `IpDnsRecord` union. -/
inductive IpDnsPayload where
  | A (address : String)
  | AAAA (address : String)
  | CNAME (cname : String)
  | FWD (forward_to : String)
  | MX (mx_preference : Int) (mx_exchange : String)
  | NS (ns : String)
  | NXDOMAIN
  | SRV (srv_port : Int) (srv_priority : Int) (srv_target : String) (srv_weight : Int)
  | TXT (text : String)
deriving DecidableEq, Repr

structure IpDnsRecord where
  base : BaseIpDnsRecord
  payload : IpDnsPayload
deriving DecidableEq, Repr

/-- The discriminator value of a record. -/
def IpDnsRecord.type (r : IpDnsRecord) : IpDnsRecordType :=
  match r.payload with
  | .A _ => .A
  | .AAAA _ => .AAAA
  | .CNAME _ => .CNAME
  | .FWD _ => .FWD
  | .MX _ _ => .MX
  | .NS _ => .NS
  | .NXDOMAIN => .NXDOMAIN
  | .SRV _ _ _ _ => .SRV
  | .TXT _ => .TXT

/-- `provider.RecordType`: record types known to external-dns. -/
inductive RecordType where
  | A | AAAA | CNAME | TXT | SRV | NS | PTR | MX | NAPTR
deriving DecidableEq, Repr

/-- `provider.Endpoint` (fields not consulted by the translation layer are
omitted).  `record_ttl` is `recordTTL`, a second count or `None`. -/
structure Endpoint where
  dns_name : String
  targets : List String
  record_type : RecordType
  set_identifier : Option String := none
  record_ttl : Option Nat := none
deriving DecidableEq, Repr

/-- `provider.Changes`: the four optional lists of a batch. -/
structure Changes where
  create : Option (List Endpoint) := none
  update_old : Option (List Endpoint) := none
  update_new : Option (List Endpoint) := none
  delete : Option (List Endpoint) := none
deriving DecidableEq, Repr

/-! ## Record map (`provider.RecordMap`) -/

/-- `provider.RecordMap`: a dict from record name to the records carrying
that name, modelled as the membership function of the dict built by
`self.data.setdefault(record.name, []).append(record)` over the listed
records (`data.get(name, [])` yields `[]` for absent names). -/
structure RecordMap where
  data : String → List IpDnsRecord

/-- `RecordMap.__init__` over a device listing. -/
def RecordMap.ofRecords (records : List IpDnsRecord) : RecordMap :=
  ⟨records.foldl
    (fun m r => fun n => if n = r.base.name then m n ++ [r] else m n)
    (fun _ => [])⟩

/-- The per-record test inside `RecordMap.find`'s loop: an `A` record matches
on `address`, a `CNAME` on `cname`, a `TXT` on `text`; every other variant
falls through. -/
def findMatches (target : String) (item : IpDnsRecord) : Bool :=
  match item.payload with
  | .A address => address == target
  | .CNAME cname => cname == target
  | .TXT text => text == target
  | _ => false

/-- `provider.RecordMap.find`: scan the records stored under the endpoint's
`dns_name` and return the first whose payload equals the target. -/
def RecordMap.find (rm : RecordMap) (endpoint : Endpoint) (target : String) :
    Option IpDnsRecord :=
  (rm.data endpoint.dns_name).find? (findMatches target)

/-! ## Endpoint → record translation (`provider.to_routeros_record`) -/

/-- Python `target.startswith("*.")`. -/
def startsWithStarDot (s : String) : Bool :=
  match s.data with
  | c1 :: c2 :: _ => c1 = '*' && c2 = '.'
  | _ => false

/-- `provider.to_routeros_record`: build the shared fields (note the ttl
default `endpoint.record_ttl or 60 * 60 * 24`, a Python falsy-value check
that also replaces an explicit `0`), then dispatch on the record type;
anything but `A`/`CNAME`/`TXT` raises `NotImplementedError`. -/
def to_routeros_record (endpoint : Endpoint) (target : String) :
    Except Unit IpDnsRecord :=
  let base : BaseIpDnsRecord :=
    { disabled := false
      id := none
      match_subdomain := startsWithStarDot target
      name := endpoint.dns_name
      ttl := to_routeros_ttl
        (match endpoint.record_ttl with
          | none => 60 * 60 * 24
          | some 0 => 60 * 60 * 24
          | some n => n) }
  match endpoint.record_type with
  | .A => .ok ⟨base, .A target⟩
  | .CNAME => .ok ⟨base, .CNAME target⟩
  | .TXT => .ok ⟨base, .TXT target⟩
  | _ => .error ()

/-! ## Reconciliation (`provider.Provider.apply_changes`)

A device operation is one call on the Mikrotik client.  The device's
behaviour is abstracted by a trap oracle `fails : DeviceOp → Bool`: when it
returns `true`, the response to that call carries a `!trap`, so
`raise_for_error` raises `ResponseError` after the call has been made.  A
client call therefore yields both the issued operation and an `Except`
describing whether it raised.  `log_action` is the `with log_action(...)`
context manager: it swallows any exception raised inside the block and keeps
whatever device traffic already happened. -/

inductive DeviceOp where
  | add (record : IpDnsRecord)
  | delete (record : IpDnsRecord)
deriving DecidableEq, Repr

/-- `mikrotik.Client.add_ip_dns_record`: send the add sentence, then raise if
the response trapped. -/
def Client.add_ip_dns_record (fails : DeviceOp → Bool) (r : IpDnsRecord) :
    List DeviceOp × Except String Unit :=
  ([DeviceOp.add r], if fails (DeviceOp.add r) then .error "ResponseError" else .ok ())

/-- `mikrotik.Client.delete_ip_dns_record`: send the remove sentence, then
raise if the response trapped. -/
def Client.delete_ip_dns_record (fails : DeviceOp → Bool) (r : IpDnsRecord) :
    List DeviceOp × Except String Unit :=
  ([DeviceOp.delete r], if fails (DeviceOp.delete r) then .error "ResponseError" else .ok ())

/-- `provider.Provider.apply_changes`'s `log_action` context manager: the
`except Exception` arm logs and suppresses whatever the block raised; the
device traffic the block produced before raising stands. -/
def logAction (block : List DeviceOp × Except String Unit) : List DeviceOp :=
  block.1

/-- One iteration of the create loops (`to_routeros_record` then
`add_ip_dns_record`, inside `log_action`): an unsupported record type raises
`NotImplementedError` before any device call; a device trap raises after the
call; both are swallowed. -/
def createStep (fails : DeviceOp → Bool) (endpoint : Endpoint) (target : String) :
    List DeviceOp :=
  logAction
    (match to_routeros_record endpoint target with
      | .error _ => ([], .error "NotImplementedError")
      | .ok record => Client.add_ip_dns_record fails record)

/-- One iteration of the delete loops (`record_map.find` then, when a record
was found, `delete_ip_dns_record`, inside `log_action`): a missing record
logs and continues with no device call. -/
def deleteStep (fails : DeviceOp → Bool) (rm : RecordMap) (endpoint : Endpoint)
    (target : String) : List DeviceOp :=
  logAction
    (match rm.find endpoint target with
      | none => ([], .ok ())
      | some record => Client.delete_ip_dns_record fails record)

/-- `set(xs) - set(ys)` as iterated by the update loops.  Python set
iteration order is unspecified; this enumeration fixes it to first-occurrence
order, and carries exactly the elements of the set difference. -/
def pySetDiff (xs ys : List String) : List String :=
  (xs.filter (fun t => !ys.contains t)).dedup

/-- `provider.Provider.apply_changes`, recorded as the sequence of device
operations issued: the create list first (per endpoint, per target, in batch
order), then the delete list, then the positionally zipped update pairs —
for each pair the deletions for `set(old.targets) - set(new.targets)` and
then the additions for `set(new.targets) - set(old.targets)`, both resolved
against the new endpoint.  The initial `list_ip_dns_records` listing is the
given `rm`. -/
def apply_changes (changes : Changes) (rm : RecordMap) (fails : DeviceOp → Bool) :
    List DeviceOp :=
  let creates := changes.create.getD []
  let update_olds := changes.update_old.getD []
  let update_news := changes.update_new.getD []
  let updates := update_olds.zip update_news
  let deletes := changes.delete.getD []
  (creates.flatMap fun endpoint =>
    endpoint.targets.flatMap fun target => createStep fails endpoint target)
  ++ (deletes.flatMap fun endpoint =>
    endpoint.targets.flatMap fun target => deleteStep fails rm endpoint target)
  ++ (updates.flatMap fun pair =>
    ((pySetDiff pair.1.targets pair.2.targets).flatMap fun target =>
      deleteStep fails rm pair.2 target)
    ++ ((pySetDiff pair.2.targets pair.1.targets).flatMap fun target =>
      createStep fails pair.2 target))

/-! ## Theorems -/

/-- C8: the mapping `{"str":"a","int":1,"bool":true,"none":null}` serializes
to exactly the words `=str=a`, `=int=1`, `=bool=true`, `=none=` in that order
(booleans lowercase, null as the empty string), and api-attribute
serialization raises an error whenever some key does not start with `.`. -/
theorem c8_attribute_word_serialization :
    to_attribute_words
        [("str", .str "a"), ("int", .int 1), ("bool", .bool true), ("none", .none)]
      = ["=str=a", "=int=1", "=bool=true", "=none="]
    ∧ ∀ (val : List (String × PyValue)) (k : String) (v : PyValue),
        (k, v) ∈ val → startsWithDot k = false →
        ∃ e, to_api_attribute_words val = .error e := by
  refine ⟨rfl, ?_⟩
  intro val k v hmem hbad
  induction val with
  | nil => cases hmem
  | cons kv rest ih =>
    obtain ⟨k', v'⟩ := kv
    rcases List.mem_cons.mp hmem with h | h
    · obtain ⟨hk, hv⟩ := Prod.mk.injEq .. ▸ h
      simp only [to_api_attribute_words]
      rw [hk] at hbad
      simp [hbad]
    · simp only [to_api_attribute_words]
      obtain ⟨e, he⟩ := ih h
      rw [he]
      by_cases hs : startsWithDot k'
      · simp [hs]
      · simp [hs]

/-- Witness for C8: the serializers evaluated at the concrete inputs of the
claim; the key `"id"` without the `.` prefix is rejected. -/
theorem c8_attribute_word_serialization_witness :
    ∃ e, to_api_attribute_words [("id", PyValue.str "*1")] = .error e :=
  c8_attribute_word_serialization.2 [("id", PyValue.str "*1")] "id" (PyValue.str "*1")
    (by simp) rfl

/-! ### TTL codec lemmas -/

theorem natToCharsAux_eq_digits (fuel : Nat) :
    ∀ n acc, 0 < n → n ≤ fuel →
      natToCharsAux fuel n acc = (Nat.digits 10 n).reverse.map Nat.digitChar ++ acc := by
  induction fuel with
  | zero => intro n acc hn hle; omega
  | succ fuel ih =>
    intro n acc hn hle
    obtain ⟨m, rfl⟩ := Nat.exists_eq_add_of_lt hn
    simp only [Nat.zero_add] at *
    show natToCharsAux fuel ((m + 1) / 10) (Nat.digitChar ((m + 1) % 10) :: acc)
      = (Nat.digits 10 (m + 1)).reverse.map Nat.digitChar ++ acc
    rw [Nat.digits_def' (b := 10) (by norm_num) (Nat.succ_pos m)]
    simp only [List.reverse_cons, List.map_append, List.map_cons, List.map_nil,
      List.append_assoc, List.singleton_append, List.nil_append]
    by_cases hq : (m + 1) / 10 = 0
    · rw [hq]
      simp [natToCharsAux]
    · rw [ih ((m + 1) / 10) _ (Nat.pos_of_ne_zero hq) (by omega)]

theorem natToChars_eq_digits (n : Nat) :
    natToChars n = if n = 0 then ['0'] else (Nat.digits 10 n).reverse.map Nat.digitChar := by
  unfold natToChars
  by_cases h : n = 0
  · simp [h]
  · simp only [h, if_false]
    rw [natToCharsAux_eq_digits n n [] (Nat.pos_of_ne_zero h) (le_refl n), List.append_nil]

theorem charToDigit_digitChar : ∀ d < 10, charToDigit (Nat.digitChar d) = d := by decide

theorem isDig_digitChar : ∀ d < 10, isDig (Nat.digitChar d) = true := by decide

theorem natToChars_all_digits (n : Nat) : ∀ c ∈ natToChars n, isDig c = true := by
  intro c hc
  rw [natToChars_eq_digits] at hc
  by_cases h : n = 0
  · simp [h] at hc
    simp [hc]
    decide
  · simp [h] at hc
    obtain ⟨d, hd, rfl⟩ := hc
    exact isDig_digitChar d (Nat.digits_lt_base (by norm_num) hd)

theorem natToChars_ne_nil (n : Nat) : natToChars n ≠ [] := by
  rw [natToChars_eq_digits]
  by_cases h : n = 0
  · simp [h]
  · simp [h, Nat.digits_ne_nil_iff_ne_zero]

theorem foldl_digits (M : List Nat) (a : Nat) (hM : ∀ d ∈ M, d < 10) :
    ((M.reverse.map Nat.digitChar).foldl (fun a c => 10 * a + charToDigit c) a)
      = a * 10 ^ M.length + Nat.ofDigits 10 M := by
  induction M generalizing a with
  | nil => simp
  | cons d M ih =>
    have hd : d < 10 := hM d (by simp)
    have hM' : ∀ x ∈ M, x < 10 := fun x hx => hM x (by simp [hx])
    simp only [List.reverse_cons, List.map_append, List.foldl_append, List.map_cons,
      List.map_nil, List.foldl_cons, List.foldl_nil]
    rw [ih a hM', charToDigit_digitChar d hd, Nat.ofDigits_cons,
      List.length_cons, pow_succ]
    ring

theorem digitsToNat_natToChars (n : Nat) : digitsToNat (natToChars n) = n := by
  rw [natToChars_eq_digits]
  unfold digitsToNat
  by_cases h : n = 0
  · simp [h]
    decide
  · simp only [h, if_false]
    rw [foldl_digits (Nat.digits 10 n) 0 (fun d hd => Nat.digits_lt_base (by norm_num) hd)]
    simp [Nat.ofDigits_digits]

theorem takeWhile_digits (digs : List Char) (u : Char) (rest : List Char)
    (hdigs : ∀ c ∈ digs, isDig c = true) (hu : isDig u = false) :
    (digs ++ u :: rest).takeWhile isDig = digs
    ∧ (digs ++ u :: rest).dropWhile isDig = u :: rest := by
  induction digs with
  | nil => simp [List.takeWhile, List.dropWhile, hu]
  | cons c cs ih =>
    have hc : isDig c = true := hdigs c (by simp)
    have hcs : ∀ x ∈ cs, isDig x = true := fun x hx => hdigs x (by simp [hx])
    obtain ⟨h1, h2⟩ := ih hcs
    simp [List.takeWhile, List.dropWhile, hc, h1, h2]

theorem readSeg_renders (k : Nat) (u : Char) (rest : List Char) (hu : isDig u = false) :
    readSeg u (natToChars k ++ u :: rest) = (k, rest) := by
  obtain ⟨h1, h2⟩ := takeWhile_digits (natToChars k) u rest (natToChars_all_digits k) hu
  unfold readSeg
  rw [h1, h2]
  simp [natToChars_ne_nil k, digitsToNat_natToChars k]

/-- Decoding the rendered five-segment string recovers the second count that
was decomposed into it. -/
theorem ttl_render_roundtrip (n : Nat) : to_external_dns_ttl (to_routeros_ttl n) = n := by
  unfold to_routeros_ttl to_external_dns_ttl
  simp only [List.append_assoc, List.singleton_append, List.cons_append, List.nil_append]
  rw [readSeg_renders _ 'w' _ (by decide), readSeg_renders _ 'd' _ (by decide),
    readSeg_renders _ 'h' _ (by decide), readSeg_renders _ 'm' _ (by decide),
    readSeg_renders _ 's' _ (by decide)]
  omega

/-- Below the `timedelta` day ceiling the checked encoder succeeds with the
rendering. -/
theorem to_routeros_ttl_checked_ok (n : Nat) (h : n < 86400000000000) :
    to_routeros_ttl_checked n = .ok (to_routeros_ttl n) := by
  unfold to_routeros_ttl_checked timedeltaOfSeconds
  rw [if_neg (by omega)]
  rfl

/-- C7 (amended): the TTL codec round-trips on the encoder's actual domain —
whenever `to_routeros_ttl` returns a string (every `n` below the
`datetime.timedelta` ceiling of 86,400,000,000,000 seconds), decoding it
yields `n` back, and the encoder always emits all five `w d h m s` segments,
as witnessed at the claim's example points; for every `n` at or above the
ceiling the encoder raises `OverflowError` instead of producing a string, so
the round-trip claim fails there. -/
theorem c7_ttl_roundtrip :
    (∀ (n : Nat) (r : String), to_routeros_ttl_checked n = .ok r → to_external_dns_ttl r = n)
    ∧ (∀ n : Nat, 86400000000000 ≤ n →
      to_routeros_ttl_checked n
        = .error ("OverflowError: days=" ++ (⟨natToChars (n / 86400)⟩ : String)
            ++ "; must have magnitude <= 999999999"))
    ∧ to_routeros_ttl_checked 0 = .ok "0w0d0h0m0s"
    ∧ to_routeros_ttl_checked 694861 = .ok "1w1d1h1m1s"
    ∧ to_routeros_ttl_checked 86400 = .ok "0w1d0h0m0s"
    ∧ to_routeros_ttl_checked 59 = .ok "0w0d0h0m59s" := by
  refine ⟨?_, ?_, rfl, rfl, rfl, rfl⟩
  · intro n r hok
    by_cases h : n < 86400000000000
    · rw [to_routeros_ttl_checked_ok n h] at hok
      injection hok with hr
      rw [← hr]
      exact ttl_render_roundtrip n
    · unfold to_routeros_ttl_checked timedeltaOfSeconds at hok
      rw [if_pos (by omega)] at hok
      exact absurd hok (by simp)
  · intro n h
    unfold to_routeros_ttl_checked timedeltaOfSeconds
    rw [if_pos (by omega)]

/-- Witness for C7's amended statement: the round-trip discharged at the
claim's own example `694861 ↔ "1w1d1h1m1s"`, and the overflow clause at the
first second count past the `timedelta` ceiling. -/
theorem c7_ttl_roundtrip_witness :
    to_external_dns_ttl "1w1d1h1m1s" = 694861
    ∧ to_routeros_ttl_checked 86400000000000
      = .error ("OverflowError: days="
          ++ (⟨natToChars (86400000000000 / 86400)⟩ : String)
          ++ "; must have magnitude <= 999999999") :=
  ⟨c7_ttl_roundtrip.1 694861 "1w1d1h1m1s" rfl,
   c7_ttl_roundtrip.2.1 86400000000000 (le_refl _)⟩

/-- Counterexample to C7 as stated: at `n = 86,400,000,000,000` (one day-unit
past `timedelta`'s 999,999,999-day ceiling) the encoder raises
`OverflowError` rather than producing a string, so `decode(encode(n)) = n`
does not hold for every integer `n ≥ 0`. -/
theorem c7_ttl_roundtrip_counterexample :
    to_routeros_ttl_checked 86400000000000
      = .error "OverflowError: days=1000000000; must have magnitude <= 999999999"
    ∧ 999999999 < 86400000000000 / 86400 :=
  ⟨rfl, by norm_num⟩

/-! ### Wire codec lemmas -/

theorem readNumBytes_small : ∀ b < 0x80, readNumBytes b = 0 := by decide

set_option maxRecDepth 4096 in
theorem readNumBytes_c2 : ∀ b < 0xC0, 0x80 ≤ b → readNumBytes b = 1 := by decide

set_option maxRecDepth 4096 in
theorem readNumBytes_c3 : ∀ b < 0xE0, 0xC0 ≤ b → readNumBytes b = 2 := by decide

set_option maxRecDepth 4096 in
theorem readNumBytes_c4 : ∀ b < 0xF0, 0xE0 ≤ b → readNumBytes b = 3 := by decide

set_option maxRecDepth 4096 in
theorem readNumBytes_c5 : ∀ b < 0x100, 0xF0 ≤ b → readNumBytes b = 4 := by decide

theorem pyOrd_len_ne_one (l : List Nat) (h : l.length ≠ 1) :
    pyOrd l = .error "TypeError: ord() expected a character" := by
  match l with
  | [] => rfl
  | [b] => simp at h
  | a :: b :: t => rfl

theorem or_eq_add (mask top k n : Nat) (hmask : mask = 2 ^ k * top) (hn : n < 2 ^ k) :
    mask ||| n = mask + n := by
  subst hmask
  exact (Nat.mul_add_lt_is_or hn top).symm

theorem read_write_roundtrip_small (w rest : List Nat) (h : w.length ≤ 0x7F) :
    read_word (write_word w ++ rest) = .ok (w, rest) := by
  have hstream : write_word w ++ rest = w.length :: (w ++ rest) := by
    unfold write_word
    rw [if_pos h]
    simp [toBytesBE, Nat.mod_eq_of_lt (show w.length < 256 by omega)]
  rw [hstream]
  simp only [read_word]
  rw [readNumBytes_small w.length (by omega)]
  simp only [Nat.zero_le, if_pos, List.take_zero, List.drop_zero]
  simp only [pyOrd]
  rw [if_pos (by simp [List.length_append])]
  rw [List.take_left, List.drop_left]

theorem read_word_multibyte_error (b0 : Nat) (tail w rest : List Nat)
    (hlen : tail.length = readNumBytes b0) (h1 : 1 ≤ readNumBytes b0) :
    read_word (b0 :: (tail ++ (w ++ rest))) = .error "TypeError: ord() expected a character" := by
  simp only [read_word]
  rw [if_pos (by simp [List.length_append]; omega)]
  rw [List.take_left' hlen]
  rw [pyOrd_len_ne_one (b0 :: tail) (by rw [List.length_cons, hlen]; omega)]

theorem toBytesBE_two (v : Nat) : toBytesBE 2 v = [v / 256 % 256, v % 256] := by
  norm_num [toBytesBE, List.range_succ]

theorem toBytesBE_three (v : Nat) : toBytesBE 3 v = [v / 65536 % 256, v / 256 % 256, v % 256] := by
  norm_num [toBytesBE, List.range_succ]

theorem toBytesBE_four (v : Nat) :
    toBytesBE 4 v = [v / 16777216 % 256, v / 65536 % 256, v / 256 % 256, v % 256] := by
  norm_num [toBytesBE, List.range_succ]

theorem toBytesBE_five (v : Nat) :
    toBytesBE 5 v
      = [v / 4294967296 % 256, v / 16777216 % 256, v / 65536 % 256, v / 256 % 256, v % 256] := by
  norm_num [toBytesBE, List.range_succ]

theorem read_write_class2 (w rest : List Nat) (hlo : 0x80 ≤ w.length) (hhi : w.length ≤ 0x3FFF) :
    read_word (write_word w ++ rest) = .error "TypeError: ord() expected a character" := by
  have hor : 0x8000 ||| w.length = 0x8000 + w.length :=
    or_eq_add 0x8000 1 15 w.length (by norm_num) (by omega)
  have hstream : write_word w ++ rest
      = ((0x8000 + w.length) / 256 % 256) :: ([(0x8000 + w.length) % 256] ++ (w ++ rest)) := by
    unfold write_word
    rw [if_neg (by omega), if_pos hhi, hor, toBytesBE_two]
    simp [List.append_assoc]
  rw [hstream]
  have hnb : readNumBytes ((0x8000 + w.length) / 256 % 256) = 1 := by
    have hb0 : (0x8000 + w.length) / 256 % 256 = 128 + w.length / 256 := by omega
    rw [hb0]
    exact readNumBytes_c2 (128 + w.length / 256) (by omega) (by omega)
  exact read_word_multibyte_error _ _ w rest (by simp [hnb]) (by simp [hnb])

theorem read_write_class3 (w rest : List Nat) (hlo : 0x3FFF < w.length) (hhi : w.length ≤ 0x1FFFFF) :
    read_word (write_word w ++ rest) = .error "TypeError: ord() expected a character" := by
  have hor : 0xC00000 ||| w.length = 0xC00000 + w.length :=
    or_eq_add 0xC00000 3 22 w.length (by norm_num) (by omega)
  have hstream : write_word w ++ rest
      = ((0xC00000 + w.length) / 65536 % 256)
        :: ([(0xC00000 + w.length) / 256 % 256, (0xC00000 + w.length) % 256] ++ (w ++ rest)) := by
    unfold write_word
    rw [if_neg (by omega), if_neg (by omega), if_pos hhi, hor, toBytesBE_three]
    simp [List.append_assoc]
  rw [hstream]
  have hnb : readNumBytes ((0xC00000 + w.length) / 65536 % 256) = 2 := by
    have hb0 : (0xC00000 + w.length) / 65536 % 256 = 192 + w.length / 65536 := by omega
    rw [hb0]
    exact readNumBytes_c3 (192 + w.length / 65536) (by omega) (by omega)
  exact read_word_multibyte_error _ _ w rest (by simp [hnb]) (by simp [hnb])

theorem read_write_class4 (w rest : List Nat) (hlo : 0x1FFFFF < w.length)
    (hhi : w.length ≤ 0xFFFFFFF) :
    read_word (write_word w ++ rest) = .error "TypeError: ord() expected a character" := by
  have hor : 0xE0000000 ||| w.length = 0xE0000000 + w.length :=
    or_eq_add 0xE0000000 7 29 w.length (by norm_num) (by omega)
  have hstream : write_word w ++ rest
      = ((0xE0000000 + w.length) / 16777216 % 256)
        :: ([(0xE0000000 + w.length) / 65536 % 256, (0xE0000000 + w.length) / 256 % 256,
             (0xE0000000 + w.length) % 256] ++ (w ++ rest)) := by
    unfold write_word
    rw [if_neg (by omega), if_neg (by omega), if_neg (by omega), if_pos hhi, hor, toBytesBE_four]
    simp [List.append_assoc]
  rw [hstream]
  have hnb : readNumBytes ((0xE0000000 + w.length) / 16777216 % 256) = 3 := by
    have hb0 : (0xE0000000 + w.length) / 16777216 % 256 = 224 + w.length / 16777216 := by omega
    rw [hb0]
    exact readNumBytes_c4 (224 + w.length / 16777216) (by omega) (by omega)
  exact read_word_multibyte_error _ _ w rest (by simp [hnb]) (by simp [hnb])

theorem read_write_class5 (w rest : List Nat) (hlo : 0xFFFFFFF < w.length)
    (hhi : w.length ≤ 2 ^ 36 - 1) :
    read_word (write_word w ++ rest) = .error "TypeError: ord() expected a character" := by
  have hor : 0xF000000000 ||| w.length = 0xF000000000 + w.length :=
    or_eq_add 0xF000000000 15 36 w.length (by norm_num) (by omega)
  have hstream : write_word w ++ rest
      = ((0xF000000000 + w.length) / 4294967296 % 256)
        :: ([(0xF000000000 + w.length) / 16777216 % 256, (0xF000000000 + w.length) / 65536 % 256,
             (0xF000000000 + w.length) / 256 % 256, (0xF000000000 + w.length) % 256]
            ++ (w ++ rest)) := by
    unfold write_word
    rw [if_neg (by omega), if_neg (by omega), if_neg (by omega), if_neg (by omega), hor,
      toBytesBE_five]
    simp [List.append_assoc]
  rw [hstream]
  have hnb : readNumBytes ((0xF000000000 + w.length) / 4294967296 % 256) = 4 := by
    have hb0 : (0xF000000000 + w.length) / 4294967296 % 256 = 240 + w.length / 4294967296 := by
      omega
    rw [hb0]
    exact readNumBytes_c5 (240 + w.length / 4294967296) (by omega) (by omega)
  exact read_word_multibyte_error _ _ w rest (by simp [hnb]) (by simp [hnb])

/-- C1: the word codec round-trips exactly for words of length at most
`0x7F`; for every longer word up to the protocol maximum `2^36 - 1`,
`read_word` applied to `write_word`'s output raises `TypeError`, because it
calls `ord` on the multi-byte length prefix (and would also leave the class
mask OR'd into the length).  The claimed round-trip therefore fails for
every size class beyond the first. -/
theorem c1_word_codec_behaviour (w rest : List Nat) :
    (w.length ≤ 0x7F → read_word (write_word w ++ rest) = .ok (w, rest))
    ∧ (0x80 ≤ w.length → w.length ≤ 2 ^ 36 - 1 →
        read_word (write_word w ++ rest) = .error "TypeError: ord() expected a character") := by
  refine ⟨read_write_roundtrip_small w rest, ?_⟩
  intro h1 h2
  rcases le_or_lt w.length 0x3FFF with h | h
  · exact read_write_class2 w rest h1 h
  rcases le_or_lt w.length 0x1FFFFF with h3 | h3
  · exact read_write_class3 w rest h h3
  rcases le_or_lt w.length 0xFFFFFFF with h4 | h4
  · exact read_write_class4 w rest h3 h4
  · exact read_write_class5 w rest h4 h2

/-- Witness for C1: a one-byte word round-trips; the `0x80`-byte word — the
claim's first boundary beyond the one-byte length class — makes `read_word`
raise `TypeError`. -/
theorem c1_word_codec_behaviour_witness :
    read_word (write_word [97] ++ [7]) = .ok ([97], [7])
    ∧ read_word (write_word (List.replicate 0x80 97))
      = .error "TypeError: ord() expected a character" := by
  constructor
  · exact (c1_word_codec_behaviour [97] [7]).1 (by decide)
  · have := (c1_word_codec_behaviour (List.replicate 0x80 97) []).2
      (by simp) (by simp)
    simpa using this

/-! ### Response lemmas -/

theorem exceptBind_ok {α β ε : Type} (a : α) (f : α → Except ε β) :
    (Except.ok a >>= f) = f a := rfl

theorem exceptBind_error {α β ε : Type} (e : ε) (f : α → Except ε β) :
    ((Except.error e : Except ε α) >>= f) = .error e := rfl

theorem exceptPure {α ε : Type} (a : α) : (pure a : Except ε α) = .ok a := rfl

/-- Closed-form characterisation of `update_with_sentence`. -/
theorem update_eq (r : Response) (s : ResponseSentence) :
    r.update_with_sentence s =
      if r.complete then .error "response is complete"
      else .ok
        { sentences := r.sentences ++ [s]
          status :=
            if s.type = "!trap" then .Error
            else if s.type = "!done" then
              (if r.status = .InProgress then .Success else r.status)
            else r.status
          complete := if s.type = "!trap" then r.complete
            else if s.type = "!done" then true else r.complete } := by
  unfold Response.update_with_sentence Response.is_complete
  by_cases hc : r.complete
  · simp [hc]
  · simp only [hc, Bool.false_eq_true, if_false, if_neg hc]
    by_cases ht : s.type = "!trap"
    · simp [ht]
    · simp only [ht, if_false, beq_iff_eq]
      by_cases hd : s.type = "!done"
      · by_cases hip : r.status = .InProgress
        · simp [hd, hip]
        · simp [hd, hip]
      · simp [hd]

theorem update_step_inv (r r' : Response) (s : ResponseSentence)
    (hup : r.update_with_sentence s = .ok r') (hs : s.type ≠ "!trap")
    (hP : r.complete = false → r.status = .InProgress) :
    r'.complete = false → r'.status = .InProgress := by
  rw [update_eq] at hup
  by_cases hc : r.complete
  · rw [if_pos hc] at hup
    exact absurd hup (by simp)
  · have hst := hP (by simpa using hc)
    rw [if_neg hc] at hup
    injection hup with hrec
    rw [← hrec]
    by_cases hd : s.type = "!done"
    · simp [hd]
    · simp [hs, hd, hst]

theorem update_ok_not_complete (r r' : Response) (s : ResponseSentence)
    (hup : r.update_with_sentence s = .ok r') : r.complete = false := by
  rw [update_eq] at hup
  by_cases hc : r.complete
  · rw [if_pos hc] at hup
    exact absurd hup (by simp)
  · simpa using hc

theorem update_trap_status (r r' : Response) (s : ResponseSentence)
    (hup : r.update_with_sentence s = .ok r') (hs : s.type = "!trap") :
    r'.status = .Error := by
  rw [update_eq] at hup
  by_cases hc : r.complete
  · rw [if_pos hc] at hup
    exact absurd hup (by simp)
  · rw [if_neg hc] at hup
    injection hup with hrec
    rw [← hrec]
    simp [hs]

theorem update_error_absorb (r r' : Response) (s : ResponseSentence)
    (hup : r.update_with_sentence s = .ok r') (herr : r.status = .Error) :
    r'.status = .Error := by
  rw [update_eq] at hup
  by_cases hc : r.complete
  · rw [if_pos hc] at hup
    exact absurd hup (by simp)
  · rw [if_neg hc] at hup
    injection hup with hrec
    rw [← hrec]
    by_cases ht : s.type = "!trap"
    · simp [ht]
    · by_cases hd : s.type = "!done"
      · simp [ht, hd, herr]
      · simp [ht, hd, herr]

theorem applyAll_error_absorb (ss : List ResponseSentence) :
    ∀ r r' : Response, Response.applyAll r ss = .ok r' → r.status = .Error →
      r'.status = .Error := by
  induction ss with
  | nil =>
    intro r r' h herr
    simp only [Response.applyAll, List.foldlM_nil, exceptPure, Except.ok.injEq] at h
    rw [← h]
    exact herr
  | cons s tail ih =>
    intro r r' h herr
    simp only [Response.applyAll, List.foldlM_cons] at h
    match hup : r.update_with_sentence s with
    | .error e =>
      rw [hup, exceptBind_error] at h
      exact absurd h (by simp)
    | .ok r1 =>
      rw [hup, exceptBind_ok] at h
      exact ih r1 r' h (update_error_absorb r r1 s hup herr)

theorem applyAll_P_inv (ss : List ResponseSentence) :
    ∀ r r' : Response, Response.applyAll r ss = .ok r' →
      (∀ s ∈ ss, s.type ≠ "!trap") →
      (r.complete = false → r.status = .InProgress) →
      (r'.complete = false → r'.status = .InProgress) := by
  induction ss with
  | nil =>
    intro r r' h _ hP
    simp only [Response.applyAll, List.foldlM_nil, exceptPure, Except.ok.injEq] at h
    rw [← h]
    exact hP
  | cons s tail ih =>
    intro r r' h hs hP
    simp only [Response.applyAll, List.foldlM_cons] at h
    match hup : r.update_with_sentence s with
    | .error e =>
      rw [hup, exceptBind_error] at h
      exact absurd h (by simp)
    | .ok r1 =>
      rw [hup, exceptBind_ok] at h
      exact ih r1 r' h (fun x hx => hs x (by simp [hx]))
        (update_step_inv r r1 s hup (hs s (by simp)) hP)

theorem applyAll_trap (ss : List ResponseSentence) :
    ∀ r r' : Response, Response.applyAll r ss = .ok r' →
      (∃ s ∈ ss, s.type = "!trap") → r'.status = .Error := by
  induction ss with
  | nil =>
    intro r r' _ hex
    obtain ⟨s, hmem, _⟩ := hex
    cases hmem
  | cons s tail ih =>
    intro r r' h hex
    simp only [Response.applyAll, List.foldlM_cons] at h
    match hup : r.update_with_sentence s with
    | .error e =>
      rw [hup, exceptBind_error] at h
      exact absurd h (by simp)
    | .ok r1 =>
      rw [hup, exceptBind_ok] at h
      obtain ⟨x, hmem, hx⟩ := hex
      rcases List.mem_cons.mp hmem with rfl | hmem'
      · exact applyAll_error_absorb tail r1 r' h (update_trap_status r r1 x hup hx)
      · exact ih r1 r' h ⟨x, hmem', hx⟩

/-- C2: cancelling a fresh in-progress response appends the synthetic `!trap`
sentence with message `"response cancelled"` and sets status `Error`, but the
completion event is never set — `is_complete` stays `false`, so a caller
blocked in `wait_until_complete` is not woken, contrary to the claim (and to
`cancel`'s own docstring, which says the response is then handled as a
completed response). -/
theorem c2_cancel_leaves_response_incomplete :
    ∃ r, Response.fresh.cancel = .ok r
      ∧ r.status = ResponseStatus.Error
      ∧ (∃ s ∈ r.sentences, s.type = "!trap"
          ∧ s.attributes.lookup "message" = some "response cancelled")
      ∧ r.is_complete = false := by
  refine ⟨⟨[⟨"!trap", [("message", "response cancelled")], []⟩], .Error, false⟩,
    rfl, rfl, ⟨⟨"!trap", [("message", "response cancelled")], []⟩, by simp, rfl, rfl⟩, rfl⟩

/-- C4: the response status state machine.  A run from a fresh response whose
sentence list ends with `!done` and contains no `!trap` completes with status
`Success`; a run containing any `!trap` ends with status `Error` even when a
`!done` follows; and once complete, both `update_with_sentence` and `cancel`
are rejected with an error (raised before any mutation, so the response is
unchanged). -/
theorem c4_response_state_machine :
    (∀ (init : List ResponseSentence) (sd : ResponseSentence) (r : Response),
      sd.type = "!done" → (∀ s ∈ init, s.type ≠ "!trap") →
      Response.applyAll Response.fresh (init ++ [sd]) = .ok r →
      r.status = .Success ∧ r.complete = true)
    ∧ (∀ (ss : List ResponseSentence) (r : Response),
      Response.applyAll Response.fresh ss = .ok r →
      (∃ s ∈ ss, s.type = "!trap") → r.status = .Error)
    ∧ (∀ (r : Response) (s : ResponseSentence), r.is_complete = true →
      r.update_with_sentence s = .error "response is complete"
      ∧ r.cancel = .error "rresponse is complete") := by
  refine ⟨?_, ?_, ?_⟩
  · intro init sd r hdone hnotrap happly
    unfold Response.applyAll at happly
    rw [List.foldlM_append] at happly
    match h1 : Response.applyAll Response.fresh init with
    | .error e =>
      unfold Response.applyAll at h1
      rw [h1, exceptBind_error] at happly
      exact absurd happly (by simp)
    | .ok r1 =>
      unfold Response.applyAll at h1
      rw [h1, exceptBind_ok] at happly
      simp only [List.foldlM_cons, List.foldlM_nil] at happly
      match hup : r1.update_with_sentence sd with
      | .error e =>
        rw [hup, exceptBind_error] at happly
        exact absurd happly (by simp)
      | .ok r2 =>
        rw [hup, exceptBind_ok, exceptPure] at happly
        injection happly with h2
        have hnc : r1.complete = false := update_ok_not_complete r1 r2 sd hup
        have hst : r1.status = .InProgress :=
          applyAll_P_inv init Response.fresh r1 h1 hnotrap (fun _ => rfl) hnc
        rw [update_eq, if_neg (by simp [hnc])] at hup
        injection hup with hrec
        rw [← h2, ← hrec]
        constructor
        · simp [hdone, hst]
        · simp [hdone]
  · intro ss r happly hex
    exact applyAll_trap ss Response.fresh r happly hex
  · intro r s hcomp
    unfold Response.is_complete at hcomp
    constructor
    · rw [update_eq, if_pos hcomp]
    · unfold Response.cancel Response.is_complete
      rw [if_pos hcomp]

/-- Witness for C4: the three parts evaluated on the concrete runs
`!re,!done` (success), `!trap,!done` (error), and a completed response
rejecting further updates and cancellation. -/
theorem c4_response_state_machine_witness :
    ((⟨[⟨"!re", [], []⟩, ⟨"!done", [], []⟩], .Success, true⟩ : Response).status
        = ResponseStatus.Success
      ∧ (⟨[⟨"!re", [], []⟩, ⟨"!done", [], []⟩], .Success, true⟩ : Response).complete = true)
    ∧ (⟨[⟨"!trap", [], []⟩, ⟨"!done", [], []⟩], .Error, true⟩ : Response).status
        = ResponseStatus.Error
    ∧ ((⟨[⟨"!done", [], []⟩], .Success, true⟩ : Response).update_with_sentence ⟨"!re", [], []⟩
        = .error "response is complete"
      ∧ (⟨[⟨"!done", [], []⟩], .Success, true⟩ : Response).cancel
        = .error "rresponse is complete") :=
  ⟨c4_response_state_machine.1 [⟨"!re", [], []⟩] ⟨"!done", [], []⟩ _ rfl (by decide) rfl,
   c4_response_state_machine.2.1 [⟨"!trap", [], []⟩, ⟨"!done", [], []⟩] _ rfl
     ⟨⟨"!trap", [], []⟩, List.mem_cons_self _ _, rfl⟩,
   c4_response_state_machine.2.2 _ ⟨"!re", [], []⟩ rfl⟩

/-- C3 (amended): on an open connection, a sentence without a `.tag`
api-attribute makes `read` raise `RuntimeError("tag not found")`, and a
sentence whose tag is not in the pending-response dict makes
`self.responses[tag]` raise `KeyError`; either exception terminates the
background reader task at that point — the connection is *not* closed and
the pending responses are left untouched (none is cancelled), so no
close + cancel-all happens. -/
theorem c3_reader_error_keeps_connection_open :
    (∀ (st : ConnState) (now : Nat) (s : ResponseSentence)
        (events : List (Nat × Option ResponseSentence)),
      st.stream = true → st.closed = false →
      s.api_attributes.lookup ".tag" = none →
      Connection.run_background_read st ((now, some s) :: events)
        = ({ st with idle_since := now }, some "RuntimeError: tag not found")
      ∧ ({ st with idle_since := now } : ConnState).closed = st.closed
      ∧ ({ st with idle_since := now } : ConnState).responses = st.responses)
    ∧ (∀ (st : ConnState) (now : Nat) (s : ResponseSentence)
        (events : List (Nat × Option ResponseSentence)) (tag : String),
      st.stream = true → st.closed = false →
      s.api_attributes.lookup ".tag" = some tag →
      st.responses.lookup tag = none →
      Connection.run_background_read st ((now, some s) :: events)
        = ({ st with idle_since := now }, some ("KeyError: " ++ tag))
      ∧ ({ st with idle_since := now } : ConnState).closed = st.closed
      ∧ ({ st with idle_since := now } : ConnState).responses = st.responses) := by
  constructor
  · intro st now s events hstream hopen htag
    refine ⟨?_, rfl, rfl⟩
    unfold Connection.run_background_read Connection.read
    rw [hopen, hstream]
    simp [htag]
  · intro st now s events tag hstream hopen htag hresp
    refine ⟨?_, rfl, rfl⟩
    unfold Connection.run_background_read Connection.read
    rw [hopen, hstream]
    simp [htag, hresp]

/-- Witness for C3's amended statement: a concrete open connection with one
pending response fed a tagless `!re` sentence, and the same connection fed a
sentence tagged `t2`, a tag not in the pending dict. -/
theorem c3_reader_error_keeps_connection_open_witness :
    (Connection.run_background_read ⟨false, true, [("t1", Response.fresh)], 0⟩
        [(7, some ⟨"!re", [], []⟩)]
      = (⟨false, true, [("t1", Response.fresh)], 7⟩, some "RuntimeError: tag not found")
    ∧ (⟨false, true, [("t1", Response.fresh)], 7⟩ : ConnState).closed
      = (⟨false, true, [("t1", Response.fresh)], 0⟩ : ConnState).closed
    ∧ (⟨false, true, [("t1", Response.fresh)], 7⟩ : ConnState).responses
      = (⟨false, true, [("t1", Response.fresh)], 0⟩ : ConnState).responses)
    ∧ (Connection.run_background_read ⟨false, true, [("t1", Response.fresh)], 0⟩
        [(9, some ⟨"!re", [], [(".tag", "t2")]⟩)]
      = (⟨false, true, [("t1", Response.fresh)], 9⟩, some "KeyError: t2")
    ∧ (⟨false, true, [("t1", Response.fresh)], 9⟩ : ConnState).closed
      = (⟨false, true, [("t1", Response.fresh)], 0⟩ : ConnState).closed
    ∧ (⟨false, true, [("t1", Response.fresh)], 9⟩ : ConnState).responses
      = (⟨false, true, [("t1", Response.fresh)], 0⟩ : ConnState).responses) :=
  ⟨c3_reader_error_keeps_connection_open.1 ⟨false, true, [("t1", Response.fresh)], 0⟩ 7
     ⟨"!re", [], []⟩ [] rfl rfl rfl,
   c3_reader_error_keeps_connection_open.2 ⟨false, true, [("t1", Response.fresh)], 0⟩ 9
     ⟨"!re", [], [(".tag", "t2")]⟩ [] "t2" rfl rfl rfl rfl⟩

/-- Counterexample to C3 as stated: on an open connection holding one pending
in-progress response, a sentence without a `.tag` api-attribute makes the
reader task stop with a `RuntimeError` — afterwards the connection's
closed flag is still `false` and the pending response is still registered,
in progress, and uncancelled, whereas the claim says the connection is closed
and every pending response cancelled. -/
theorem c3_reader_error_counterexample :
    Connection.run_background_read ⟨false, true, [("t1", Response.fresh)], 0⟩
        [(5, some ⟨"!re", [], []⟩)]
      = (⟨false, true, [("t1", Response.fresh)], 5⟩, some "RuntimeError: tag not found")
    ∧ (⟨false, true, [("t1", Response.fresh)], 5⟩ : ConnState).closed = false
    ∧ Response.fresh.status = ResponseStatus.InProgress
    ∧ Response.fresh.is_complete = false :=
  ⟨rfl, rfl, rfl, rfl⟩

/-! ### Record-map and translation lemmas -/

/-- The record-map dict stores, under every name, exactly the listed records
carrying that name, in listing order. -/
theorem ofRecords_data (records : List IpDnsRecord) (name : String) :
    (RecordMap.ofRecords records).data name
      = records.filter (fun r => r.base.name == name) := by
  suffices h : ∀ (m : String → List IpDnsRecord),
      (records.foldl (fun m r => fun n => if n = r.base.name then m n ++ [r] else m n) m) name
        = m name ++ records.filter (fun r => r.base.name == name) by
    simpa [RecordMap.ofRecords] using h (fun _ => [])
  induction records with
  | nil => intro m; simp
  | cons r rs ih =>
    intro m
    simp only [List.foldl_cons, List.filter_cons]
    rw [ih]
    by_cases hn : name = r.base.name
    · simp [hn, List.append_assoc]
    · have : (r.base.name == name) = false := by
        simp [beq_iff_eq]
        exact fun h => hn h.symm
      simp [hn, this]

/-- C9: `RecordMap.find` never consults the endpoint's `record_type` — the
lookup result is unchanged under any retyping of the endpoint; it returns the
first listed record under the endpoint's `dnsName` whose `A.address`,
`CNAME.cname` or `TXT.text` payload equals the target; in particular a `TXT`
endpoint finds (and an update can delete) an `A` record whose address equals
the target string. -/
theorem c9_find_ignores_record_type :
    (∀ (records : List IpDnsRecord) (e : Endpoint) (t : String) (rt : RecordType),
      (RecordMap.ofRecords records).find { e with record_type := rt } t
        = (RecordMap.ofRecords records).find e t)
    ∧ (∀ (records : List IpDnsRecord) (e : Endpoint) (t : String),
      (RecordMap.ofRecords records).find e t
        = (records.filter (fun r => r.base.name == e.dns_name)).find? (findMatches t))
    ∧ ((RecordMap.ofRecords
          [⟨⟨false, some "*1", false, "x.lan", "0w1d0h0m0s"⟩, .A "1.2.3.4"⟩]).find
        ⟨"x.lan", ["1.2.3.4"], .TXT, none, none⟩ "1.2.3.4"
        = some ⟨⟨false, some "*1", false, "x.lan", "0w1d0h0m0s"⟩, .A "1.2.3.4"⟩) := by
  refine ⟨fun records e t rt => rfl, fun records e t => ?_, rfl⟩
  unfold RecordMap.find
  rw [ofRecords_data]

/-- C10: an explicit `recordTTL` of `0` behaves exactly like an absent
`recordTTL`: whenever `to_routeros_record` produces a record for such an
endpoint, that record's ttl is the default `"0w1d0h0m0s"` (86400 seconds),
because the default is applied with the falsy-value check
`endpoint.record_ttl or 60 * 60 * 24`. -/
theorem c10_zero_ttl_defaults (e : Endpoint) (t : String) (r : IpDnsRecord)
    (httl : e.record_ttl = none ∨ e.record_ttl = some 0)
    (hok : to_routeros_record e t = .ok r) :
    r.base.ttl = "0w1d0h0m0s" := by
  obtain ⟨dns, tgts, rt, si, ttl⟩ := e
  have httl' : ttl = none ∨ ttl = some 0 := httl
  unfold to_routeros_record at hok
  rcases httl' with h | h <;> subst h <;>
    cases rt <;> simp at hok <;>
      · rw [← hok]
        show to_routeros_ttl 86400 = "0w1d0h0m0s"
        decide

/-- Witness for C10: a `TXT` endpoint with an explicit `recordTTL` of `0`
translates to a record whose ttl renders the 86400-second default. -/
theorem c10_zero_ttl_defaults_witness :
    to_routeros_record ⟨"x.lan", ["v"], .TXT, none, some 0⟩ "v"
      = .ok ⟨⟨false, none, false, "x.lan", "0w1d0h0m0s"⟩, .TXT "v"⟩
    ∧ (⟨⟨false, none, false, "x.lan", "0w1d0h0m0s"⟩, .TXT "v"⟩ : IpDnsRecord).base.ttl
      = "0w1d0h0m0s" :=
  ⟨rfl, c10_zero_ttl_defaults ⟨"x.lan", ["v"], .TXT, none, some 0⟩ "v" _
    (Or.inr rfl) rfl⟩

/-! ### Reconciliation lemmas -/

/-- The create step issues the add exactly when translation succeeds,
independently of whether the device traps the call. -/
theorem createStep_eq (f : DeviceOp → Bool) (e : Endpoint) (t : String) :
    createStep f e t =
      match to_routeros_record e t with
      | .ok r => [DeviceOp.add r]
      | .error _ => [] := by
  unfold createStep logAction Client.add_ip_dns_record
  cases to_routeros_record e t <;> rfl

/-- The delete step issues the delete exactly when the record-map lookup
succeeds, independently of whether the device traps the call. -/
theorem deleteStep_eq (f : DeviceOp → Bool) (rm : RecordMap) (e : Endpoint) (t : String) :
    deleteStep f rm e t =
      match rm.find e t with
      | some r => [DeviceOp.delete r]
      | none => [] := by
  unfold deleteStep logAction Client.delete_ip_dns_record
  cases rm.find e t <;> rfl

theorem pySetDiff_mem (xs ys : List String) (t : String) :
    t ∈ pySetDiff xs ys ↔ t ∈ xs ∧ t ∉ ys := by
  unfold pySetDiff
  rw [List.mem_dedup, List.mem_filter]
  simp

/-- C5 (amended): the device operations of a batch are, in order, the create
adds (per endpoint, per target, in batch order, issued only when the record
type translates, i.e. A/CNAME/TXT), then the delete-list deletes (issued only
for targets found in the record-map), then per positionally-zipped update
pair first the deletes for the found targets of `set(old) − set(new)` and
then the adds for the translatable targets of `set(new) − set(old)`;
`pySetDiff` carries exactly the set difference, so targets common to old and
new trigger no device call. -/
theorem c5_apply_changes_order :
    (∀ (ch : Changes) (rm : RecordMap) (f : DeviceOp → Bool),
      apply_changes ch rm f =
        ((ch.create.getD []).flatMap (fun e => e.targets.flatMap (fun t =>
            match to_routeros_record e t with
            | .ok r => [DeviceOp.add r]
            | .error _ => [])))
        ++ ((ch.delete.getD []).flatMap (fun e => e.targets.flatMap (fun t =>
            match rm.find e t with
            | some r => [DeviceOp.delete r]
            | none => [])))
        ++ (((ch.update_old.getD []).zip (ch.update_new.getD [])).flatMap (fun p =>
            ((pySetDiff p.1.targets p.2.targets).flatMap (fun t =>
              match rm.find p.2 t with
              | some r => [DeviceOp.delete r]
              | none => []))
            ++ ((pySetDiff p.2.targets p.1.targets).flatMap (fun t =>
              match to_routeros_record p.2 t with
              | .ok r => [DeviceOp.add r]
              | .error _ => [])))))
    ∧ (∀ (xs ys : List String) (t : String), t ∈ pySetDiff xs ys ↔ t ∈ xs ∧ t ∉ ys)
    ∧ (∀ (xs ys : List String) (t : String), t ∈ xs → t ∈ ys →
      t ∉ pySetDiff xs ys ∧ t ∉ pySetDiff ys xs) := by
  refine ⟨?_, pySetDiff_mem, ?_⟩
  · intro ch rm f
    unfold apply_changes
    simp only [createStep_eq, deleteStep_eq]
  · intro xs ys t hx hy
    constructor
    · intro h
      exact absurd hy ((pySetDiff_mem xs ys t).mp h).2
    · intro h
      exact absurd hx ((pySetDiff_mem ys xs t).mp h).2

/-- Witness for C5's amended statement: spec scenario S3 — an update changing
one of two targets issues exactly one delete (for the device record holding
the removed address) followed by one add (for the new address), and the
common target `10.0.0.5` is in neither set difference. -/
theorem c5_apply_changes_order_witness :
    apply_changes
        { create := none
          update_old := some [⟨"x.lan", ["10.0.0.5", "10.0.0.6"], .A, none, none⟩]
          update_new := some [⟨"x.lan", ["10.0.0.5", "10.0.0.7"], .A, none, none⟩]
          delete := none }
        (RecordMap.ofRecords
          [⟨⟨false, some "*1", false, "x.lan", "0w1d0h0m0s"⟩, .A "10.0.0.5"⟩,
           ⟨⟨false, some "*2", false, "x.lan", "0w1d0h0m0s"⟩, .A "10.0.0.6"⟩])
        (fun _ => false)
      = [DeviceOp.delete ⟨⟨false, some "*2", false, "x.lan", "0w1d0h0m0s"⟩, .A "10.0.0.6"⟩,
         DeviceOp.add ⟨⟨false, none, false, "x.lan", "0w1d0h0m0s"⟩, .A "10.0.0.7"⟩]
    ∧ ("10.0.0.5" ∉ pySetDiff ["10.0.0.5", "10.0.0.6"] ["10.0.0.5", "10.0.0.7"]
      ∧ "10.0.0.5" ∉ pySetDiff ["10.0.0.5", "10.0.0.7"] ["10.0.0.5", "10.0.0.6"]) :=
  ⟨(c5_apply_changes_order.1
      { create := none
        update_old := some [⟨"x.lan", ["10.0.0.5", "10.0.0.6"], .A, none, none⟩]
        update_new := some [⟨"x.lan", ["10.0.0.5", "10.0.0.7"], .A, none, none⟩]
        delete := none }
      (RecordMap.ofRecords
        [⟨⟨false, some "*1", false, "x.lan", "0w1d0h0m0s"⟩, .A "10.0.0.5"⟩,
         ⟨⟨false, some "*2", false, "x.lan", "0w1d0h0m0s"⟩, .A "10.0.0.6"⟩])
      (fun _ => false)).trans rfl,
   c5_apply_changes_order.2.2 ["10.0.0.5", "10.0.0.6"] ["10.0.0.5", "10.0.0.7"] "10.0.0.5"
     (by simp) (by simp)⟩

/-- Counterexample to C5 as stated: a batch whose create list holds an
unsupported `MX` endpoint and whose single update pair removes the target
`1.2.3.4` against an empty device listing issues *no* device operation at
all, while the claim requires one add per create-list target and deletes for
exactly `set(old) − set(new)` (which here contains `1.2.3.4`). -/
theorem c5_apply_changes_order_counterexample :
    apply_changes
        { create := some [⟨"m.lan", ["mx.m.lan"], .MX, none, none⟩]
          update_old := some [⟨"x.lan", ["1.2.3.4"], .A, none, none⟩]
          update_new := some [⟨"x.lan", [], .A, none, none⟩]
          delete := none }
        (RecordMap.ofRecords []) (fun _ => false) = []
    ∧ pySetDiff ["1.2.3.4"] [] = ["1.2.3.4"] :=
  ⟨rfl, rfl⟩

/-- C6: `apply_changes` is best-effort.  The sequence of attempted device
operations does not depend on which calls the device traps (so a failed call
aborts nothing and nothing propagates to the caller, every per-target block
being wrapped in the exception-swallowing `log_action`); a delete whose
target is not found in the record-map makes no device call; an unsupported
record type makes no device call; and when translation or lookup succeeds the
call is attempted even if the device will trap it. -/
theorem c6_apply_changes_best_effort :
    (∀ (ch : Changes) (rm : RecordMap) (f g : DeviceOp → Bool),
      apply_changes ch rm f = apply_changes ch rm g)
    ∧ (∀ (f : DeviceOp → Bool) (rm : RecordMap) (e : Endpoint) (t : String),
      rm.find e t = none → deleteStep f rm e t = [])
    ∧ (∀ (f : DeviceOp → Bool) (e : Endpoint) (t : String),
      to_routeros_record e t = .error () → createStep f e t = [])
    ∧ (∀ (f : DeviceOp → Bool) (e : Endpoint) (t : String) (r : IpDnsRecord),
      to_routeros_record e t = .ok r → createStep f e t = [DeviceOp.add r])
    ∧ (∀ (f : DeviceOp → Bool) (rm : RecordMap) (e : Endpoint) (t : String)
        (r : IpDnsRecord),
      rm.find e t = some r → deleteStep f rm e t = [DeviceOp.delete r]) := by
  refine ⟨?_, ?_, ?_, ?_, ?_⟩
  · intro ch rm f g
    unfold apply_changes
    simp only [createStep_eq, deleteStep_eq]
  · intro f rm e t h
    rw [deleteStep_eq, h]
  · intro f e t h
    rw [createStep_eq, h]
  · intro f e t r h
    rw [createStep_eq, h]
  · intro f rm e t r h
    rw [deleteStep_eq, h]

/-- Witness for C6, with an oracle that traps every device call: the missing
delete target and the unsupported create type issue nothing, while a
translatable create and a found delete are still attempted. -/
theorem c6_apply_changes_best_effort_witness :
    deleteStep (fun _ => true) (RecordMap.ofRecords []) ⟨"x.lan", ["v"], .A, none, none⟩ "v"
      = []
    ∧ createStep (fun _ => true) ⟨"m.lan", ["mx.m.lan"], .MX, none, none⟩ "mx.m.lan" = []
    ∧ createStep (fun _ => true) ⟨"x.lan", ["v"], .A, none, none⟩ "v"
      = [DeviceOp.add ⟨⟨false, none, false, "x.lan", "0w1d0h0m0s"⟩, .A "v"⟩]
    ∧ deleteStep (fun _ => true)
        (RecordMap.ofRecords [⟨⟨false, some "*1", false, "x.lan", "0w1d0h0m0s"⟩, .A "10.0.0.5"⟩])
        ⟨"x.lan", ["10.0.0.5"], .A, none, none⟩ "10.0.0.5"
      = [DeviceOp.delete ⟨⟨false, some "*1", false, "x.lan", "0w1d0h0m0s"⟩, .A "10.0.0.5"⟩] :=
  ⟨c6_apply_changes_best_effort.2.1 _ _ _ _ rfl,
   c6_apply_changes_best_effort.2.2.1 _ _ _ rfl,
   c6_apply_changes_best_effort.2.2.2.1 _ _ _ _ rfl,
   c6_apply_changes_best_effort.2.2.2.2 _ _ _ _ _ rfl⟩

end RouterOS
